import Mathlib

/-!
Verification of the libfreespace win32 device engine
(`src/win32/freespace_device.c`) against its natural-language
specification.

The embedding is shallow: each C function of the send/receive engine is
translated into an executable Lean function over explicit device state.
Windows I/O primitives (`ReadFile`, `WriteFile`, `GetOverlappedResult`,
`WaitForSingleObject`, `CreateEvent`) are nondeterministic from the
engine's point of view, so each of their possible outcomes is supplied as
an explicit oracle argument; the observable actions the engine performs
(issuing reads and writes, cancelling channel I/O, invoking the
registered callbacks) are recorded in an event trace.

Notes on the scope of the model:
* `freespace_private_getDeviceById` lives in the device-manager
  translation unit (not under `src/`); the functions here therefore take
  the `DeviceStruct` directly and the `NO_DEVICE` lookup failure is out
  of scope.
* The numeric values of the `FREESPACE_*` result codes and of the pool
  and buffer size macros come from public headers that are not under
  `src/`.  Only their identities matter to this file: result codes are
  an enumeration `RC`, the send pool is a list whose length is the
  capacity `FREESPACE_MAXIMUM_SEND_MESSAGE_COUNT`, and
  `FREESPACE_MAX_OUTPUT_MESSAGE_SIZE` is passed as the `maxOut`
  parameter.
* Machine integers: lengths and byte counts are `Nat`.  All claims under
  study concern nonnegative in-range values; signed overflow paths are
  not exercised by them.
-/

/-- Windows `GetLastError` codes used by the source (winerror.h values). -/
def ERROR_IO_PENDING : Nat := 997

/-- Windows code: overlapped operation not yet complete. -/
def ERROR_IO_INCOMPLETE : Nat := 996

/-- Windows code: the device has been physically disconnected. -/
def ERROR_DEVICE_NOT_CONNECTED : Nat := 1167

/-- `const int SEND_TIMEOUT = 1000;` milliseconds. -/
def SEND_TIMEOUT : Nat := 1000

/-- The `FREESPACE_*` result codes returned by the engine.  Their numeric
values live in the public header (outside `src/`); only their identity is
used by the code under verification. -/
inductive RC where
  | success
  | noDevice
  | busy
  | io
  | timeout
  | sendTooLarge
  | interrupted
  | notFound
  | unexpected
  | noData
  deriving DecidableEq, Repr

/-- Observable actions of the engine.  `readIssued`/`writeIssued` are the
`ReadFile`/`WriteFile` calls (with the channel index and, for writes, the
exact bytes and count handed to the OS), `ioCancel` is `CancelIo` on a
channel handle, and the two callback events record invocations of the
registered receive and send callbacks with their arguments. -/
inductive Event where
  | readIssued (channel : Nat)
  | writeIssued (channel : Nat) (bytes : List Nat)
  | ioCancel (channel : Nat)
  | recvCallback (payload : Option (List Nat)) (rc : RC)
  | sendCallback (deviceId : Nat) (cookie : Nat) (rc : RC)
  deriving DecidableEq, Repr

/-- One physical report channel: `struct FreespaceSubStruct`.  The OS
handle itself is modelled by the oracles of each operation; the
device path and the overlapped event are owned resources with no
engine-visible state beyond their existence. -/
structure SubStruct where
  inputReportByteLength : Nat
  outputReportByteLength : Nat
  readStatus : Bool
  readBuffer : List Nat
  readBufferSize : Nat
  deriving DecidableEq, Repr

/-- Default `SubStruct`, used for out-of-range list lookups (the C code
never performs such a lookup on the paths under study). -/
def defaultSub : SubStruct :=
  { inputReportByteLength := 0,
    outputReportByteLength := 0,
    readStatus := false,
    readBuffer := [],
    readBufferSize := 0 }

/-- One send slot: `struct FreespaceSendStruct`.  `interface_` is the
pointer to the target channel (`none` = free slot), modelled as the
channel's index in the device's handle array.  `hEvent` records whether
the lazily created overlapped event exists. -/
structure SendStruct where
  interface_ : Option Nat
  report_ : List Nat
  numBytes : Nat
  rc : RC
  error_ : RC
  hasCallback : Bool
  cookie : Nat
  timeoutMs : Nat
  hEvent : Bool
  deriving DecidableEq, Repr

/-- Default `SendStruct` for out-of-range lookups. -/
def defaultSend : SendStruct :=
  { interface_ := none,
    report_ := [],
    numBytes := 0,
    rc := RC.success,
    error_ := RC.success,
    hasCallback := false,
    cookie := 0,
    timeoutMs := 0,
    hEvent := false }

/-- One logical device: `struct FreespaceDeviceStruct`.  `handles` has
length `handleCount_`; `sends` has length
`FREESPACE_MAXIMUM_SEND_MESSAGE_COUNT` (the fixed pool capacity). -/
structure DeviceStruct where
  id : Nat
  isOpened : Bool
  handles : List SubStruct
  sends : List SendStruct
  hasReceiveCallback : Bool
  deriving DecidableEq, Repr

/-- Update the pending-read flag of channel `i` (C: `s->readStatus_ = b`). -/
def setReadStatus (l : List SubStruct) (i : Nat) (b : Bool) : List SubStruct :=
  l.set i { l.getD i defaultSub with readStatus := b }

/-- Record the bytes an OS read deposited in channel `i`'s buffer
(C: `ReadFile`/`GetOverlappedResult` filling `readBuffer`/`readBufferSize`). -/
def setBuf (l : List SubStruct) (i : Nat) (payload : List Nat) : List SubStruct :=
  l.set i { l.getD i defaultSub with
            readBuffer := payload,
            readBufferSize := payload.length }

/-- C `convertGetLastError` (lines 49-56): a disconnect maps to
`NOT_FOUND`, everything else to `UNEXPECTED`. -/
def convertGetLastError (lastError : Nat) : RC :=
  if lastError = ERROR_DEVICE_NOT_CONNECTED then RC.notFound else RC.unexpected

/-- C `getNextSendBuffer` (lines 110-120): first-fit scan of the send pool
for a slot whose `interface_` is null; returns the slot (here: its index),
or `NULL` (`none`) when every slot is in use. -/
def getNextSendBuffer : List SendStruct → Option Nat
  | [] => none
  | s :: rest =>
    if s.interface_ = none then some 0
    else (getNextSendBuffer rest).map (· + 1)

/-- Number of send slots currently in use (channel reference non-null). -/
def inUseCount (sends : List SendStruct) : Nat :=
  sends.countP (fun s => s.interface_.isSome)

/-- One step of the channel-selection loop of `prepareSend`
(lines 409-415): replace the running best index when the candidate
channel has a strictly larger output report length. -/
def selStep (handles : List SubStruct) (best idx : Nat) : Nat :=
  if (handles.getD best defaultSub).outputReportByteLength <
     (handles.getD idx defaultSub).outputReportByteLength
  then idx else best

/-- The channel-selection loop of `prepareSend` (lines 409-415):
`s = &device->handle_[0]` then scan every channel, keeping the one with
the strictly largest output report length (ties keep the earlier one). -/
def selectChannelIdx (handles : List SubStruct) : Nat :=
  (List.range handles.length).foldl (selStep handles) 0

/-- C `initializeSendStruct` (lines 441-462): mark the slot free, clear
its error, and lazily create the overlapped event.  `createEventOk` is
the `CreateEvent` oracle (only consulted when the event does not exist
yet).  The C `send == NULL` guard is unreachable here because callers
pass a slot obtained from the pool. -/
def initializeSendStruct (createEventOk : Bool) (send : SendStruct) : RC × SendStruct :=
  let s := { send with interface_ := none, error_ := RC.success }
  if s.hEvent then (RC.success, s)
  else if createEventOk then (RC.success, { s with hEvent := true })
  else (RC.unexpected, s)

/-- C `finalizeSendStruct` (lines 464-472): release the slot back to the
pool (`interface_ = NULL`); on `doClose` also destroy the overlapped
event.  Returns the slot's stored result code. -/
def finalizeSendStruct (send : SendStruct) (doClose : Bool) : RC × SendStruct :=
  let s := { send with interface_ := none }
  if doClose then (s.rc, { s with hEvent := false }) else (s.rc, s)

/-- Result of `prepareSend`: the returned code, the mutated device, and
the `*sendOut` slot index (`none` when `*sendOut` was set to `NULL` or
never assigned). -/
structure PrepOut where
  rc : RC
  dev : DeviceStruct
  slotIdx : Option Nat
  deriving DecidableEq, Repr

/-- C `prepareSend` (lines 380-439).  `maxOut` is the
`FREESPACE_MAX_OUTPUT_MESSAGE_SIZE` header constant and `createEventOk`
the `CreateEvent` oracle.  Mirrors the source exactly: requires the
device opened (`FREESPACE_ERROR_IO` otherwise), allocates first-fit
(`BUSY` on exhaustion), initializes the slot, stores the selected channel
in `interface_` *before* the length checks, and on success copies
`length` caller bytes and zero-pads up to the channel's output report
length (bytes of `report_` beyond that length keep their previous
values, exactly like the C array). -/
def prepareSend (maxOut : Nat) (createEventOk : Bool) (dev : DeviceStruct)
    (report : List Nat) (length : Nat) : PrepOut :=
  if !dev.isOpened then ⟨RC.io, dev, none⟩
  else
    match getNextSendBuffer dev.sends with
    | none => ⟨RC.busy, dev, none⟩
    | some i =>
      let r0 := initializeSendStruct createEventOk (dev.sends.getD i defaultSend)
      if r0.1 ≠ RC.success then
        ⟨r0.1, { dev with sends := dev.sends.set i r0.2 }, some i⟩
      else
        let ci := selectChannelIdx dev.handles
        let s := dev.handles.getD ci defaultSub
        let slot1 := { r0.2 with interface_ := some ci }
        if s.outputReportByteLength < length then
          ⟨RC.sendTooLarge,
           { dev with sends := dev.sends.set i { slot1 with rc := RC.sendTooLarge } },
           some i⟩
        else if maxOut < s.outputReportByteLength then
          ⟨RC.unexpected,
           { dev with sends := dev.sends.set i { slot1 with rc := RC.unexpected } },
           some i⟩
        else
          let buf := report.take length
                     ++ List.replicate (s.outputReportByteLength - length) 0
                     ++ slot1.report_.drop s.outputReportByteLength
          ⟨RC.success,
           { dev with sends := dev.sends.set i { slot1 with report_ := buf, rc := RC.success } },
           some i⟩

/-- Outcome of a `WriteFile` call: synchronous completion with a byte
count, or failure/would-block with a `GetLastError` code
(`ERROR_IO_PENDING` = the write went pending). -/
inductive WriteOutcome where
  | ok (numBytes : Nat)
  | fail (lastError : Nat)
  deriving DecidableEq, Repr

/-- Result of `freespace_send_activate`: returned code, the slot, the
(possibly mutated) channel array, and the trace. -/
structure ActivateOut where
  rc : RC
  slot : SendStruct
  handles : List SubStruct
  events : List Event
  deriving DecidableEq, Repr

/-- C `freespace_send_activate` (lines 474-506): issue the `WriteFile`
for exactly the target channel's output report length.  Synchronous
completion stores `SUCCESS` (without checking the byte count) and
finalizes the slot; `ERROR_IO_PENDING` leaves the slot pending and
returns the `FREESPACE_ERROR_IO` sentinel; any other failure cancels all
I/O on the channel (clearing its pending-read flag), stores `UNEXPECTED`
and finalizes.  Note the failure path uses a hard-coded `UNEXPECTED`,
not `convertGetLastError`. -/
def freespace_send_activate (handles : List SubStruct) (slot : SendStruct)
    (w : WriteOutcome) : ActivateOut :=
  let ci := slot.interface_.getD 0
  let outLen := (handles.getD ci defaultSub).outputReportByteLength
  let ev := Event.writeIssued ci (slot.report_.take outLen)
  match w with
  | .ok n =>
    let fin := finalizeSendStruct { slot with numBytes := n, rc := RC.success } false
    ⟨fin.1, fin.2, handles, [ev]⟩
  | .fail e =>
    if e = ERROR_IO_PENDING then ⟨RC.io, slot, handles, [ev]⟩
    else
      let fin := finalizeSendStruct { slot with rc := RC.unexpected } false
      ⟨fin.1, fin.2, setReadStatus handles ci false, [ev, Event.ioCancel ci]⟩

/-- Outcome of a `GetOverlappedResult` poll on a send: the operation has
completed with a byte count, or it is still outstanding. -/
inductive OverlappedOutcome where
  | ready (numBytes : Nat)
  | notReady
  deriving DecidableEq, Repr

/-- C `freespace_send` (lines 508-571): prepare, activate, and if the
write went pending wait on the slot's event (`waitSignaled` oracle).
On a failed prepare the function returns *without* finalizing the slot.
If the wait does not signal: poll the overlapped result, cancel all
channel I/O (clearing the pending-read flag), and classify as `TIMEOUT`
when the poll says the write had completed, `IO` when it was still
outstanding.  If the wait signals: `IO` unless the transferred byte
count equals the channel's output report length. -/
def freespace_send (maxOut : Nat) (dev : DeviceStruct) (report : List Nat)
    (length : Nat) (createEventOk : Bool) (w : WriteOutcome)
    (waitSignaled : Bool) (ov : OverlappedOutcome) :
    RC × DeviceStruct × List Event :=
  let p := prepareSend maxOut createEventOk dev report length
  match p.slotIdx with
  | none => (p.rc, p.dev, [])
  | some i =>
    if p.rc ≠ RC.success then (p.rc, p.dev, [])
    else
      let slot := p.dev.sends.getD i defaultSend
      let a := freespace_send_activate p.dev.handles slot w
      let devA := { p.dev with handles := a.handles, sends := p.dev.sends.set i a.slot }
      if a.rc ≠ RC.io then (a.rc, devA, a.events)
      else
        let ci := a.slot.interface_.getD 0
        if !waitSignaled then
          let completed := match ov with | .ready _ => true | .notReady => false
          let n := match ov with | .ready m => m | .notReady => a.slot.numBytes
          let rc2 := if completed then RC.timeout else RC.io
          let fin := finalizeSendStruct { a.slot with numBytes := n, rc := rc2 } false
          (fin.1,
           { devA with
             handles := setReadStatus a.handles ci false,
             sends := p.dev.sends.set i fin.2 },
           a.events ++ [Event.ioCancel ci])
        else
          match ov with
          | .notReady =>
            let fin := finalizeSendStruct { a.slot with rc := RC.io } false
            (fin.1, { devA with sends := p.dev.sends.set i fin.2 }, a.events)
          | .ready n =>
            let outLen := (a.handles.getD ci defaultSub).outputReportByteLength
            let rc2 := if n ≠ outLen then RC.io else RC.success
            let fin := finalizeSendStruct { a.slot with numBytes := n, rc := rc2 } false
            (fin.1, { devA with sends := p.dev.sends.set i fin.2 }, a.events)

/-- C `freespace_sendAsync` (lines 573-597): prepare, store
callback/cookie/timeout on the slot, activate.  A pending write returns
`SUCCESS` immediately; its completion is observed later by the perform
driver.  A synchronously completed write returns activation's result
directly — no callback is invoked on this path. -/
def freespace_sendAsync (maxOut : Nat) (dev : DeviceStruct) (report : List Nat)
    (length : Nat) (timeoutMs : Nat) (hasCallback : Bool) (cookie : Nat)
    (createEventOk : Bool) (w : WriteOutcome) :
    RC × DeviceStruct × List Event :=
  let p := prepareSend maxOut createEventOk dev report length
  match p.slotIdx with
  | none => (p.rc, p.dev, [])
  | some i =>
    if p.rc ≠ RC.success then (p.rc, p.dev, [])
    else
      let slot := { p.dev.sends.getD i defaultSend with
                    hasCallback := hasCallback, cookie := cookie, timeoutMs := timeoutMs }
      let a := freespace_send_activate p.dev.handles slot w
      let devA := { p.dev with handles := a.handles, sends := p.dev.sends.set i a.slot }
      if a.rc ≠ RC.io then (a.rc, devA, a.events)
      else (RC.success, devA, a.events)

/-- The per-slot body of the send loop of `freespace_private_devicePerform`
(lines 182-212): skip free slots; poll the overlapped result
(`ov` oracle); when the write has completed, invoke the registered send
callback once — `IO` when the transferred byte count differs from the
target channel's output report length, `SUCCESS` otherwise — and
finalize (free) the slot. -/
def performSendSlot (devId : Nat) (handles : List SubStruct) (slot : SendStruct)
    (ov : OverlappedOutcome) : SendStruct × List Event :=
  match slot.interface_ with
  | none => (slot, [])
  | some ci =>
    match ov with
    | .notReady => (slot, [])
    | .ready n =>
      let outLen := (handles.getD ci defaultSub).outputReportByteLength
      let rcv := if n ≠ outLen then RC.io else RC.success
      let ev := if slot.hasCallback then [Event.sendCallback devId slot.cookie rcv] else []
      let fin := finalizeSendStruct { slot with numBytes := n } false
      (fin.2, ev)

/-- The send loop of `freespace_private_devicePerform` (lines 182-212):
apply `performSendSlot` to every slot of the pool, with one overlapped
oracle per slot. -/
def performSends (devId : Nat) (handles : List SubStruct) :
    List SendStruct → List OverlappedOutcome → List SendStruct × List Event
  | [], _ => ([], [])
  | s :: rest, ovs =>
    let r := performSendSlot devId handles s (ovs.headD OverlappedOutcome.notReady)
    let rs := performSends devId handles rest ovs.tail
    (r.1 :: rs.1, r.2 ++ rs.2)

/-- Outcome of a `ReadFile` call: synchronous completion with the
received payload, or failure/would-block with a `GetLastError` code
(`ERROR_IO_PENDING` = the read went pending). -/
inductive ReadOutcome where
  | ok (payload : List Nat)
  | fail (lastError : Nat)
  deriving DecidableEq, Repr

/-- Outcome of a `GetOverlappedResult` poll on a pending read: completed
with the received payload, or failed with a `GetLastError` code
(`ERROR_IO_INCOMPLETE` = genuinely still incomplete). -/
inductive PollOutcome where
  | ready (payload : List Nat)
  | fail (lastError : Nat)
  deriving DecidableEq, Repr

/-- `CancelIo` events for every channel whose pending-read flag is set
(the channels `terminateAsyncReceives`, lines 247-260, cancels). -/
def terminateEvents (handles : List SubStruct) : List Event :=
  ((List.range handles.length).filter
    (fun i => (handles.getD i defaultSub).readStatus)).map Event.ioCancel

/-- Effect of the application clearing the receive callback from inside
the callback, i.e. `freespace_setReceiveCallback(id, NULL, NULL)` on an
opened device (lines 723-731): the callback is removed and
`terminateAsyncReceives` cancels every pending read and clears its flag. -/
def clearReceiveCallback (handles : List SubStruct) : List SubStruct × List Event :=
  (handles.map (fun s => { s with readStatus := false }), terminateEvents handles)

/-- How a drain of one channel ended: `bailed` = a synchronous completion
arrived while the callback was already cleared, so the whole rearm pass
returns immediately; `broke e` = `ReadFile` returned `FALSE` with
`GetLastError() = e`. -/
inductive DrainOutcome where
  | bailed
  | broke (lastError : Nat)
  deriving DecidableEq, Repr

/-- State leaving a drain of one channel. -/
structure DrainOut where
  cb : Bool
  handles : List SubStruct
  oracle : List ReadOutcome
  clears : List Bool
  events : List Event
  outcome : DrainOutcome
  deriving DecidableEq, Repr

/-- The inner `for (;;)` drain loop of `initiateAsyncReceives`
(lines 136-156): issue `ReadFile` (consuming the `oracle` head; an
exhausted oracle stands for would-block); on synchronous completion
deliver the payload to the callback if it is still registered — the
application's callback may clear the callback re-entrantly, which the
`clears` oracle decides per delivery — otherwise bail out of the whole
pass; on `FALSE` break out with the error code.  Re-entrant behaviour
of the application callback other than clearing the receive callback is
not modelled. -/
def drainChannel (devId idx : Nat) :
    Bool → List SubStruct → List ReadOutcome → List Bool → DrainOut
  | cb, handles, [], clears =>
    ⟨cb, handles, [], clears, [Event.readIssued idx], DrainOutcome.broke ERROR_IO_PENDING⟩
  | cb, handles, ro :: oracle, clears =>
    match ro with
    | .fail e => ⟨cb, handles, oracle, clears, [Event.readIssued idx], DrainOutcome.broke e⟩
    | .ok payload =>
      if cb then
        let deliver := Event.recvCallback (some payload) RC.success
        if clears.headD false then
          let cl := clearReceiveCallback handles
          let r := drainChannel devId idx false cl.1 oracle clears.tail
          { r with events := Event.readIssued idx :: deliver :: (cl.2 ++ r.events) }
        else
          let r := drainChannel devId idx cb handles oracle clears.tail
          { r with events := Event.readIssued idx :: deliver :: r.events }
      else
        ⟨cb, handles, oracle, clears, [Event.readIssued idx], DrainOutcome.bailed⟩

/-- State leaving a receive-engine pass. -/
structure RecvOut where
  handles : List SubStruct
  cb : Bool
  oracle : List ReadOutcome
  clears : List Bool
  events : List Event
  rc : RC
  deriving DecidableEq, Repr

/-- The outer channel loop of `initiateAsyncReceives` (lines 133-171):
for each channel without a pending read, drain it; a bail ends the pass
with `SUCCESS`; `ERROR_IO_PENDING` marks the channel pending and moves
on; any other error notifies the callback with a null payload and the
`convertGetLastError` code (the C call site does not re-check that the
callback is still non-null), records `INTERRUPTED` as the pass result,
and moves on. -/
def receivesAux (devId : Nat) :
    List Nat → List SubStruct → Bool → List ReadOutcome → List Bool → RC → RecvOut
  | [], handles, cb, oracle, clears, funcRc => ⟨handles, cb, oracle, clears, [], funcRc⟩
  | idx :: rest, handles, cb, oracle, clears, funcRc =>
    if (handles.getD idx defaultSub).readStatus then
      receivesAux devId rest handles cb oracle clears funcRc
    else
      let d := drainChannel devId idx cb handles oracle clears
      match d.outcome with
      | .bailed => ⟨d.handles, d.cb, d.oracle, d.clears, d.events, RC.success⟩
      | .broke e =>
        if e = ERROR_IO_PENDING then
          let r := receivesAux devId rest (setReadStatus d.handles idx true)
                     d.cb d.oracle d.clears funcRc
          { r with events := d.events ++ r.events }
        else
          let r := receivesAux devId rest d.handles d.cb d.oracle d.clears RC.interrupted
          { r with events :=
              d.events ++ Event.recvCallback none (convertGetLastError e) :: r.events }

/-- C `initiateAsyncReceives` (lines 122-174): nothing to do unless the
device is opened and a receive callback is registered; otherwise run the
rearm pass over every channel. -/
def initiateAsyncReceives (devId : Nat) (isOpened cb : Bool)
    (handles : List SubStruct) (oracle : List ReadOutcome) (clears : List Bool) : RecvOut :=
  if !isOpened || !cb then ⟨handles, cb, oracle, clears, [], RC.success⟩
  else receivesAux devId (List.range handles.length) handles cb oracle clears RC.success

/-- The read-poll loop of `freespace_private_devicePerform`
(lines 216-241): for each channel with a pending read, poll the
overlapped result (one oracle entry per channel).  Completion delivers
the payload if a callback is registered and clears the flag; a genuine
`ERROR_IO_INCOMPLETE` leaves the read pending; any other failure invokes
the callback with a null payload and `FREESPACE_ERROR_NO_DATA` (the C
call site does not guard this invocation) and clears the flag.
Re-entrant callback mutation during this loop is not modelled. -/
def pollReads (devId : Nat) (cb : Bool) (pollOracle : List PollOutcome) :
    List Nat → List SubStruct → List SubStruct × List Event
  | [], handles => (handles, [])
  | idx :: rest, handles =>
    if (handles.getD idx defaultSub).readStatus then
      match pollOracle.getD idx (PollOutcome.fail ERROR_IO_INCOMPLETE) with
      | .ready payload =>
        let ev := if cb then [Event.recvCallback (some payload) RC.success] else []
        let r := pollReads devId cb pollOracle rest
                   (setReadStatus (setBuf handles idx payload) idx false)
        (r.1, ev ++ r.2)
      | .fail e =>
        if e = ERROR_IO_INCOMPLETE then pollReads devId cb pollOracle rest handles
        else
          let r := pollReads devId cb pollOracle rest (setReadStatus handles idx false)
          (r.1, Event.recvCallback none RC.noData :: r.2)
    else pollReads devId cb pollOracle rest handles

/-- C `freespace_private_devicePerform` (lines 176-245): advance every
pending send, poll every pending read, then rearm reads. -/
def freespace_private_devicePerform (dev : DeviceStruct)
    (sendOvs : List OverlappedOutcome) (pollOracle : List PollOutcome)
    (armOracle : List ReadOutcome) (clears : List Bool) :
    DeviceStruct × List Event × RC :=
  let ps := performSends dev.id dev.handles dev.sends sendOvs
  let pr := pollReads dev.id dev.hasReceiveCallback pollOracle
              (List.range dev.handles.length) dev.handles
  let r := initiateAsyncReceives dev.id dev.isOpened dev.hasReceiveCallback
             pr.1 armOracle clears
  ({ dev with handles := r.handles, sends := ps.1, hasReceiveCallback := r.cb },
   ps.2 ++ pr.2 ++ r.events, r.rc)

/-- C `freespace_flush` (lines 681-695): `CancelIo` every channel handle
and clear every pending-read flag, returning `SUCCESS`.  Mirrors the
source: the opened flag is not consulted. -/
def freespace_flush (dev : DeviceStruct) : RC × DeviceStruct × List Event :=
  (RC.success,
   { dev with handles := dev.handles.map (fun s => { s with readStatus := false }) },
   (List.range dev.handles.length).map Event.ioCancel)

/-- Result of `freespace_read`: returned code, the device's channel
array, the bytes copied into the caller's buffer, `*actualLength`
(`none` when the C code never assigned it), and the trace. -/
structure ReadOut where
  rc : RC
  handles : List SubStruct
  message : List Nat
  actualLength : Option Nat
  events : List Event
  deriving DecidableEq, Repr

/-- How the wait of `freespace_read` (`WaitForMultipleObjects`) ended. -/
inductive WaitOutcome where
  | failed
  | timedOut
  | signaled
  deriving DecidableEq, Repr

/-- Continuation state of the arming loop of `freespace_read`. -/
inductive ArmResult where
  | done (out : ReadOut)
  | proceed (handles : List SubStruct) (events : List Event)
  deriving DecidableEq, Repr

/-- The arming loop of `freespace_read` (lines 614-642): issue a
`ReadFile` on every channel without a pending read (one oracle entry per
channel).  A synchronous completion returns immediately with
`min(readBufferSize, maxLength)` bytes copied out; `ERROR_IO_PENDING`
marks the channel pending; any other error returns `INTERRUPTED`
(the `convertGetLastError` result is computed but unused in the C). -/
def readArmLoop (maxLength : Nat) (armOracle : List ReadOutcome) :
    List Nat → List SubStruct → List Event → ArmResult
  | [], handles, evs => ArmResult.proceed handles evs
  | idx :: rest, handles, evs =>
    if (handles.getD idx defaultSub).readStatus then
      readArmLoop maxLength armOracle rest handles evs
    else
      let evs := evs ++ [Event.readIssued idx]
      match armOracle.getD idx (ReadOutcome.fail ERROR_IO_PENDING) with
      | .ok payload =>
        let aLen := min payload.length maxLength
        ArmResult.done ⟨RC.success, setBuf handles idx payload,
                        payload.take aLen, some aLen, evs⟩
      | .fail e =>
        if e = ERROR_IO_PENDING then
          readArmLoop maxLength armOracle rest (setReadStatus handles idx true) evs
        else ArmResult.done ⟨RC.interrupted, handles, [], none, evs⟩

/-- The completion loop of `freespace_read` (lines 654-675): poll the
overlapped result of every channel (one oracle entry per channel).  The
first completion returns `min(readBufferSize, maxLength)` bytes and
clears the channel's pending flag; `ERROR_IO_INCOMPLETE` moves on; any
other failure clears the flag and returns `INTERRUPTED`.  Falling off
the loop returns `INTERRUPTED` (line 677). -/
def readPollLoop (maxLength : Nat) (pollOracle : List PollOutcome) :
    List Nat → List SubStruct → List Event → ReadOut
  | [], handles, evs => ⟨RC.interrupted, handles, [], none, evs⟩
  | idx :: rest, handles, evs =>
    match pollOracle.getD idx (PollOutcome.fail ERROR_IO_INCOMPLETE) with
    | .ready payload =>
      let aLen := min payload.length maxLength
      ⟨RC.success, setReadStatus (setBuf handles idx payload) idx false,
       payload.take aLen, some aLen, evs⟩
    | .fail e =>
      if e = ERROR_IO_INCOMPLETE then readPollLoop maxLength pollOracle rest handles evs
      else ⟨RC.interrupted, setReadStatus handles idx false, [], none, evs⟩

/-- C `freespace_read` (lines 599-678): arm all channels, wait on the
union of their events, then poll for the first completion.  Mirrors the
source: the opened flag is never consulted, so the reads are issued
against whatever handles the channels hold. -/
def freespace_read (dev : DeviceStruct) (maxLength : Nat)
    (armOracle : List ReadOutcome) (wait : WaitOutcome)
    (pollOracle : List PollOutcome) : ReadOut :=
  match readArmLoop maxLength armOracle (List.range dev.handles.length) dev.handles [] with
  | .done out => out
  | .proceed handles evs =>
    match wait with
    | .failed => ⟨RC.interrupted, handles, [], none, evs⟩
    | .timedOut => ⟨RC.timeout, handles, [], none, evs⟩
    | .signaled => readPollLoop maxLength pollOracle (List.range dev.handles.length) handles evs

/-- A 7-byte-output channel, used by the concrete scenarios. -/
def ch7 : SubStruct :=
  { defaultSub with inputReportByteLength := 9, outputReportByteLength := 7 }

/-- A 31-byte-output channel, used by the concrete scenarios. -/
def ch31 : SubStruct :=
  { defaultSub with inputReportByteLength := 33, outputReportByteLength := 31 }

/-- An input-only channel for the receive-engine scenarios. -/
def chRecv : SubStruct := { defaultSub with inputReportByteLength := 4 }

/-- A free send slot whose overlapped event already exists (the state
every slot is in after `freespace_openDevice`). -/
def freeSlot : SendStruct := { defaultSend with hEvent := true }

/-- Opened device with channels of output lengths 7 and 31 and one free
send slot. -/
def devTwoCh : DeviceStruct :=
  { id := 1, isOpened := true, handles := [ch7, ch31],
    sends := [freeSlot], hasReceiveCallback := false }

/-- Opened device with a single 7-byte-output channel and one free slot. -/
def devOneCh : DeviceStruct :=
  { id := 2, isOpened := true, handles := [ch7],
    sends := [freeSlot], hasReceiveCallback := false }

/-- A device that is not opened. -/
def devClosed : DeviceStruct :=
  { id := 3, isOpened := false, handles := [ch7],
    sends := [freeSlot], hasReceiveCallback := false }

/-- Getting an element just written by `List.set`. -/
lemma getD_set_self {α : Type} (l : List α) (i : Nat) (a d : α) (h : i < l.length) :
    (l.set i a).getD i d = a := by
  induction l generalizing i with
  | nil => simp at h
  | cons x xs ih =>
    cases i with
    | zero => simp [List.getD]
    | succ n =>
      simp only [List.set_cons_succ, List.getD_cons_succ]
      exact ih n (by simpa using h)

/-- The first-fit scan returns an index inside the pool. -/
lemma getNextSendBuffer_lt_length :
    ∀ (sends : List SendStruct) (i : Nat), getNextSendBuffer sends = some i →
      i < sends.length := by
  intro sends
  induction sends with
  | nil => intro i h; simp [getNextSendBuffer] at h
  | cons s rest ih =>
    intro i h
    by_cases hs : s.interface_ = none
    · simp [getNextSendBuffer, hs] at h
      simp only [List.length_cons]
      omega
    · simp only [getNextSendBuffer, if_neg hs, Option.map_eq_some'] at h
      obtain ⟨j, hj, rfl⟩ := h
      have := ih j hj
      simp only [List.length_cons]
      omega

/-- The slot the first-fit scan returns is free. -/
lemma getNextSendBuffer_free :
    ∀ (sends : List SendStruct) (i : Nat), getNextSendBuffer sends = some i →
      (sends.getD i defaultSend).interface_ = none := by
  intro sends
  induction sends with
  | nil => intro i h; simp [getNextSendBuffer] at h
  | cons s rest ih =>
    intro i h
    by_cases hs : s.interface_ = none
    · simp [getNextSendBuffer, hs] at h
      subst h
      simpa [List.getD] using hs
    · simp only [getNextSendBuffer, if_neg hs, Option.map_eq_some'] at h
      obtain ⟨j, hj, rfl⟩ := h
      simpa [List.getD_cons_succ] using ih j hj

/-- Every slot before the one the first-fit scan returns is in use. -/
lemma getNextSendBuffer_first :
    ∀ (sends : List SendStruct) (i : Nat), getNextSendBuffer sends = some i →
      ∀ j, j < i → (sends.getD j defaultSend).interface_ ≠ none := by
  intro sends
  induction sends with
  | nil => intro i h; simp [getNextSendBuffer] at h
  | cons s rest ih =>
    intro i h j hj
    by_cases hs : s.interface_ = none
    · simp [getNextSendBuffer, hs] at h
      omega
    · simp only [getNextSendBuffer, if_neg hs, Option.map_eq_some'] at h
      obtain ⟨k, hk, rfl⟩ := h
      cases j with
      | zero => simpa [List.getD] using hs
      | succ m =>
        simp only [List.getD_cons_succ]
        exact ih k hk m (by omega)

/-- When every slot is in use the first-fit scan finds nothing. -/
lemma getNextSendBuffer_none :
    ∀ (sends : List SendStruct), (∀ s ∈ sends, s.interface_ ≠ none) →
      getNextSendBuffer sends = none := by
  intro sends
  induction sends with
  | nil => intro _; simp [getNextSendBuffer]
  | cons s rest ih =>
    intro h
    have hs : s.interface_ ≠ none := h s (by simp)
    simp only [getNextSendBuffer, if_neg hs]
    rw [ih (fun x hx => h x (by simp [hx]))]
    rfl

/-- The running best of the selection loop never gets worse. -/
lemma selFold_ge_start (handles : List SubStruct) :
    ∀ (L : List Nat) (b : Nat),
      (handles.getD b defaultSub).outputReportByteLength ≤
        (handles.getD (L.foldl (selStep handles) b) defaultSub).outputReportByteLength := by
  intro L
  induction L with
  | nil => intro b; simp
  | cons i L ih =>
    intro b
    simp only [List.foldl_cons]
    refine le_trans ?_ (ih (selStep handles b i))
    unfold selStep
    by_cases h : (handles.getD b defaultSub).outputReportByteLength <
        (handles.getD i defaultSub).outputReportByteLength
    · rw [if_pos h]; exact le_of_lt h
    · rw [if_neg h]

/-- Every index visited by the selection loop has output length at most
the final best's. -/
lemma selFold_mem_le (handles : List SubStruct) :
    ∀ (L : List Nat) (b i : Nat), i ∈ L →
      (handles.getD i defaultSub).outputReportByteLength ≤
        (handles.getD (L.foldl (selStep handles) b) defaultSub).outputReportByteLength := by
  intro L
  induction L with
  | nil => intro b i h; simp at h
  | cons j L ih =>
    intro b i h
    simp only [List.foldl_cons]
    rcases List.mem_cons.mp h with rfl | hL
    · refine le_trans ?_ (selFold_ge_start handles L (selStep handles b i))
      unfold selStep
      by_cases hc : (handles.getD b defaultSub).outputReportByteLength <
          (handles.getD i defaultSub).outputReportByteLength
      · rw [if_pos hc]
      · rw [if_neg hc]; exact le_of_not_lt hc
    · exact ih (selStep handles b j) i hL

/-- The selection loop's result stays inside the bound its inputs obey. -/
lemma selFold_lt (handles : List SubStruct) :
    ∀ (L : List Nat) (b n : Nat), b < n → (∀ i ∈ L, i < n) →
      L.foldl (selStep handles) b < n := by
  intro L
  induction L with
  | nil => intro b n hb _; simpa using hb
  | cons i L ih =>
    intro b n hb hL
    simp only [List.foldl_cons]
    have hstep : selStep handles b i < n := by
      unfold selStep
      by_cases hc : (handles.getD b defaultSub).outputReportByteLength <
          (handles.getD i defaultSub).outputReportByteLength
      · rw [if_pos hc]; exact hL i (by simp)
      · rw [if_neg hc]; exact hb
    exact ih (selStep handles b i) n hstep (fun j hj => hL j (by simp [hj]))

/-- The selected channel index is a valid index. -/
lemma selectChannelIdx_lt (handles : List SubStruct) (h : 0 < handles.length) :
    selectChannelIdx handles < handles.length :=
  selFold_lt handles (List.range handles.length) 0 handles.length h
    (fun _ hj => List.mem_range.mp hj)

/-- The selected channel has the largest output report length. -/
lemma selectChannelIdx_max (handles : List SubStruct) (i : Nat) (hi : i < handles.length) :
    (handles.getD i defaultSub).outputReportByteLength ≤
      (handles.getD (selectChannelIdx handles) defaultSub).outputReportByteLength :=
  selFold_mem_le handles (List.range handles.length) 0 i (List.mem_range.mpr hi)

/-- Is this event a payload delivery to the receive callback? -/
def isDeliver : Event → Bool
  | Event.recvCallback (some _) _ => true
  | _ => false

/-- The payload deliveries of a trace. -/
def deliveries (evs : List Event) : List Event := evs.filter isDeliver

lemma deliveries_append (a b : List Event) :
    deliveries (a ++ b) = deliveries a ++ deliveries b := by
  simp [deliveries, List.filter_append]

lemma deliveries_cons_readIssued (i : Nat) (l : List Event) :
    deliveries (Event.readIssued i :: l) = deliveries l := by
  simp [deliveries, isDeliver]

lemma deliveries_terminateEvents (handles : List SubStruct) :
    deliveries (terminateEvents handles) = [] := by
  unfold terminateEvents
  generalize ((List.range handles.length).filter
    (fun i => (handles.getD i defaultSub).readStatus)) = L
  induction L with
  | nil => rfl
  | cons x L ih => simp only [List.map_cons, deliveries, List.filter_cons, isDeliver]; exact ih

lemma deliveries_cons_recvNone (rc : RC) (l : List Event) :
    deliveries (Event.recvCallback none rc :: l) = deliveries l := by
  simp [deliveries, isDeliver]

/-- A drain entered with the callback already cleared delivers nothing,
leaves the callback cleared, and leaves the clear oracle untouched. -/
lemma drainChannel_cb_false (devId idx : Nat) (handles : List SubStruct)
    (oracle : List ReadOutcome) (clears : List Bool) :
    (drainChannel devId idx false handles oracle clears).cb = false ∧
    deliveries (drainChannel devId idx false handles oracle clears).events = [] ∧
    (drainChannel devId idx false handles oracle clears).clears = clears := by
  cases oracle with
  | nil => simp [drainChannel, deliveries, isDeliver]
  | cons ro rest =>
    cases ro with
    | ok p => simp [drainChannel, deliveries, isDeliver]
    | fail e => simp [drainChannel, deliveries, isDeliver]

/-- A rearm pass entered with the callback already cleared delivers
nothing for its whole remainder and leaves the callback cleared. -/
lemma receivesAux_cb_false (devId : Nat) :
    ∀ (idxs : List Nat) (handles : List SubStruct) (oracle : List ReadOutcome)
      (clears : List Bool) (rc0 : RC),
      (receivesAux devId idxs handles false oracle clears rc0).cb = false ∧
      deliveries (receivesAux devId idxs handles false oracle clears rc0).events = [] := by
  intro idxs
  induction idxs with
  | nil => intro handles oracle clears rc0; simp [receivesAux, deliveries]
  | cons idx rest ih =>
    intro handles oracle clears rc0
    by_cases hrs : (handles.getD idx defaultSub).readStatus
    · simpa only [receivesAux, if_pos hrs] using ih handles oracle clears rc0
    · obtain ⟨hcb, hde, -⟩ := drainChannel_cb_false devId idx handles oracle clears
      simp only [receivesAux, if_neg hrs]
      cases hout : (drainChannel devId idx false handles oracle clears).outcome with
      | bailed => simpa [hout] using ⟨hcb, hde⟩
      | broke e =>
        simp only [hout, hcb]
        by_cases he : e = ERROR_IO_PENDING
        · obtain ⟨ih1, ih2⟩ := ih
            (setReadStatus (drainChannel devId idx false handles oracle clears).handles idx true)
            (drainChannel devId idx false handles oracle clears).oracle
            (drainChannel devId idx false handles oracle clears).clears rc0
          simp [he, deliveries_append, hde, ih1, ih2]
        · obtain ⟨ih1, ih2⟩ := ih
            (drainChannel devId idx false handles oracle clears).handles
            (drainChannel devId idx false handles oracle clears).oracle
            (drainChannel devId idx false handles oracle clears).clears RC.interrupted
          simp [he, deliveries_append, deliveries_cons_recvNone, hde, ih1, ih2]

lemma deliveries_cons_deliver (p : List Nat) (rc : RC) (l : List Event) :
    deliveries (Event.recvCallback (some p) rc :: l) =
      Event.recvCallback (some p) rc :: deliveries l := by
  simp [deliveries, isDeliver]

lemma clearReceiveCallback_snd (handles : List SubStruct) :
    (clearReceiveCallback handles).2 = terminateEvents handles := rfl

/-- A drain whose next clear flag is set: either it delivers nothing and
leaves callback and clear oracle untouched, or it delivers at most once
and leaves the callback cleared. -/
lemma drainChannel_clear_first (devId idx : Nat) (cb : Bool) (handles : List SubStruct)
    (oracle : List ReadOutcome) (clears : List Bool) (hcl : clears.headD false = true) :
    (deliveries (drainChannel devId idx cb handles oracle clears).events = [] ∧
     (drainChannel devId idx cb handles oracle clears).clears = clears ∧
     (drainChannel devId idx cb handles oracle clears).cb = cb)
    ∨ ((deliveries (drainChannel devId idx cb handles oracle clears).events).length ≤ 1 ∧
       (drainChannel devId idx cb handles oracle clears).cb = false) := by
  cases clears with
  | nil => simp at hcl
  | cons c cs =>
    simp only [List.headD_cons] at hcl
    subst hcl
    cases oracle with
    | nil => left; simp [drainChannel, deliveries, isDeliver]
    | cons ro rest =>
      cases ro with
      | fail e => left; simp [drainChannel, deliveries, isDeliver]
      | ok p =>
        cases cb with
        | false => left; simp [drainChannel, deliveries, isDeliver]
        | true =>
          right
          obtain ⟨h1, h2, -⟩ := drainChannel_cb_false devId idx
            (clearReceiveCallback handles).1 rest cs
          simp only [drainChannel, List.headD_cons, if_true, List.tail_cons]
          refine ⟨?_, h1⟩
          simp only [deliveries_cons_readIssued, deliveries_cons_deliver,
                     deliveries_append, clearReceiveCallback_snd,
                     deliveries_terminateEvents, h2]
          simp

/-- A rearm pass whose next clear flag is set delivers at most one
payload in total: the clearing delivery itself, after which the cleared
callback receives nothing more. -/
lemma receivesAux_clear_first (devId : Nat) :
    ∀ (idxs : List Nat) (handles : List SubStruct) (cb : Bool) (oracle : List ReadOutcome)
      (clears : List Bool) (rc0 : RC), clears.headD false = true →
      (deliveries (receivesAux devId idxs handles cb oracle clears rc0).events = [] ∧
       (receivesAux devId idxs handles cb oracle clears rc0).clears = clears ∧
       (receivesAux devId idxs handles cb oracle clears rc0).cb = cb)
      ∨ ((deliveries (receivesAux devId idxs handles cb oracle clears rc0).events).length ≤ 1 ∧
         (receivesAux devId idxs handles cb oracle clears rc0).cb = false) := by
  intro idxs
  induction idxs with
  | nil => intro handles cb oracle clears rc0 hcl; left; simp [receivesAux, deliveries]
  | cons idx rest ih =>
    intro handles cb oracle clears rc0 hcl
    by_cases hrs : (handles.getD idx defaultSub).readStatus
    · simpa only [receivesAux, if_pos hrs] using ih handles cb oracle clears rc0 hcl
    · rcases drainChannel_clear_first devId idx cb handles oracle clears hcl with
        ⟨hd0, hdc, hdcb⟩ | ⟨hd1, hdcb⟩
      · cases hout : (drainChannel devId idx cb handles oracle clears).outcome with
        | bailed =>
          left
          simp only [receivesAux]
          rw [if_neg hrs]
          simp only [hout]
          exact ⟨hd0, hdc, hdcb⟩
        | broke e =>
          simp only [receivesAux]
          rw [if_neg hrs]
          simp only [hout]
          by_cases he : e = ERROR_IO_PENDING
          · rw [if_pos he]
            rcases ih (setReadStatus (drainChannel devId idx cb handles oracle clears).handles
                idx true) cb (drainChannel devId idx cb handles oracle clears).oracle
                clears rc0 hcl with ⟨ih0, ihc, ihcb⟩ | ⟨ih1, ihcb⟩
            · left
              refine ⟨?_, ?_, ?_⟩
              · simp only [hdc, hdcb, deliveries_append, hd0, ih0, List.nil_append]
              · simp only [hdc, hdcb, ihc]
              · simp only [hdc, hdcb, ihcb]
            · right
              refine ⟨?_, ?_⟩
              · simp only [hdc, hdcb, deliveries_append, hd0, List.nil_append]
                exact ih1
              · simp only [hdc, hdcb, ihcb]
          · rw [if_neg he]
            rcases ih (drainChannel devId idx cb handles oracle clears).handles
                cb (drainChannel devId idx cb handles oracle clears).oracle
                clears RC.interrupted hcl with ⟨ih0, ihc, ihcb⟩ | ⟨ih1, ihcb⟩
            · left
              refine ⟨?_, ?_, ?_⟩
              · simp only [hdc, hdcb, deliveries_append, deliveries_cons_recvNone, hd0,
                           ih0, List.nil_append]
              · simp only [hdc, hdcb, ihc]
              · simp only [hdc, hdcb, ihcb]
            · right
              refine ⟨?_, ?_⟩
              · simp only [hdc, hdcb, deliveries_append, deliveries_cons_recvNone, hd0,
                           List.nil_append]
                exact ih1
              · simp only [hdc, hdcb, ihcb]
      · cases hout : (drainChannel devId idx cb handles oracle clears).outcome with
        | bailed =>
          right
          simp only [receivesAux]
          rw [if_neg hrs]
          simp only [hout]
          exact ⟨hd1, hdcb⟩
        | broke e =>
          right
          simp only [receivesAux]
          rw [if_neg hrs]
          simp only [hout, hdcb]
          by_cases he : e = ERROR_IO_PENDING
          · rw [if_pos he]
            obtain ⟨rcb, rde⟩ := receivesAux_cb_false devId rest
              (setReadStatus (drainChannel devId idx cb handles oracle clears).handles idx true)
              (drainChannel devId idx cb handles oracle clears).oracle
              (drainChannel devId idx cb handles oracle clears).clears rc0
            refine ⟨?_, rcb⟩
            simp only [deliveries_append, rde, List.append_nil]
            exact hd1
          · rw [if_neg he]
            obtain ⟨rcb, rde⟩ := receivesAux_cb_false devId rest
              (drainChannel devId idx cb handles oracle clears).handles
              (drainChannel devId idx cb handles oracle clears).oracle
              (drainChannel devId idx cb handles oracle clears).clears RC.interrupted
            refine ⟨?_, rcb⟩
            simp only [deliveries_append, deliveries_cons_recvNone, rde, List.append_nil]
            exact hd1

/-- Output report length of the channel `prepareSend` targets. -/
def targetOutputLength (dev : DeviceStruct) : Nat :=
  (dev.handles.getD (selectChannelIdx dev.handles) defaultSub).outputReportByteLength

/-- Evaluation of the success path of `prepareSend`: opened device, free
slot `i` whose event exists, length within the target channel's output
report length, which is within the hard maximum. -/
lemma prepareSend_success (maxOut : Nat) (ceo : Bool) (dev : DeviceStruct)
    (report : List Nat) (length i : Nat)
    (hOpen : dev.isOpened = true) (hFree : getNextSendBuffer dev.sends = some i)
    (hEv : (dev.sends.getD i defaultSend).hEvent = true)
    (hLen : length ≤ targetOutputLength dev) (hMax : targetOutputLength dev ≤ maxOut) :
    prepareSend maxOut ceo dev report length =
      ⟨RC.success,
       { dev with
         sends :=
           dev.sends.set i
             { dev.sends.getD i defaultSend with
               interface_ := some (selectChannelIdx dev.handles),
               error_ := RC.success,
               report_ := report.take length
                          ++ List.replicate (targetOutputLength dev - length) 0
                          ++ (dev.sends.getD i defaultSend).report_.drop
                               (targetOutputLength dev),
               rc := RC.success } },
       some i⟩ := by
  unfold prepareSend
  rw [hOpen, hFree]
  simp only [Bool.not_true, Bool.false_eq_true, if_false, initializeSendStruct]
  rw [if_pos hEv]
  simp only [ne_eq, not_true_eq_false, if_false, ite_false]
  unfold targetOutputLength at hLen hMax ⊢
  rw [if_neg (not_lt.mpr hLen), if_neg (not_lt.mpr hMax)]

/-- Whatever the `WriteFile` outcome, `freespace_send_activate` first
issues the write of exactly `outputReportByteLength` bytes taken from
the slot's report buffer. -/
lemma activate_write_event (handles : List SubStruct) (slot : SendStruct) (w : WriteOutcome) :
    (freespace_send_activate handles slot w).events.head? =
      some (Event.writeIssued (slot.interface_.getD 0)
        (slot.report_.take
          ((handles.getD (slot.interface_.getD 0) defaultSub).outputReportByteLength))) := by
  cases w with
  | ok n => rfl
  | fail e =>
    by_cases he : e = ERROR_IO_PENDING
    · simp [freespace_send_activate, he]
    · simp [freespace_send_activate, he]

/-- The report buffer written by `prepareSend` truncated to the target
output length is exactly the caller's bytes followed by zero padding. -/
lemma paddedReport_take (report : List Nat) (length outLen : Nat) (tail : List Nat)
    (hRep : length ≤ report.length) (hLen : length ≤ outLen) :
    (report.take length ++ List.replicate (outLen - length) 0 ++ tail).take outLen =
      report.take length ++ List.replicate (outLen - length) 0 ∧
    (report.take length ++ List.replicate (outLen - length) 0).length = outLen := by
  have hlen : (report.take length ++ List.replicate (outLen - length) 0).length = outLen := by
    simp only [List.length_append, List.length_take, List.length_replicate]
    omega
  exact ⟨List.take_left' hlen, hlen⟩

/-- Evaluation of the not-opened path of `prepareSend`. -/
lemma prepareSend_not_opened (maxOut : Nat) (ceo : Bool) (dev : DeviceStruct)
    (report : List Nat) (length : Nat) (hOpen : dev.isOpened = false) :
    prepareSend maxOut ceo dev report length = ⟨RC.io, dev, none⟩ := by
  unfold prepareSend
  rw [hOpen]
  rfl

/-- Evaluation of the pool-exhausted path of `prepareSend`. -/
lemma prepareSend_busy (maxOut : Nat) (ceo : Bool) (dev : DeviceStruct)
    (report : List Nat) (length : Nat) (hOpen : dev.isOpened = true)
    (hNone : getNextSendBuffer dev.sends = none) :
    prepareSend maxOut ceo dev report length = ⟨RC.busy, dev, none⟩ := by
  unfold prepareSend
  rw [hOpen, hNone]
  rfl

/-- C2: on an opened device with at least one attached channel,
`prepareSend` targets the attached channel with the largest
output-report byte length; with channels of output lengths 7 and 31 and
a 10-byte send, it selects the 31-byte channel and pads to 31 bytes. -/
theorem freespace_c2_selects_largest_channel (handles : List SubStruct)
    (h : 0 < handles.length) :
    (selectChannelIdx handles < handles.length ∧
     ∀ i, i < handles.length →
       (handles.getD i defaultSub).outputReportByteLength ≤
         (handles.getD (selectChannelIdx handles) defaultSub).outputReportByteLength) ∧
    (selectChannelIdx devTwoCh.handles = 1 ∧
     (prepareSend 1024 true devTwoCh (List.replicate 10 2) 10).rc = RC.success ∧
     ((prepareSend 1024 true devTwoCh (List.replicate 10 2) 10).dev.sends.getD 0
        defaultSend).interface_ = some 1 ∧
     ((prepareSend 1024 true devTwoCh (List.replicate 10 2) 10).dev.sends.getD 0
        defaultSend).report_ = List.replicate 10 2 ++ List.replicate 21 0) := by
  refine ⟨⟨selectChannelIdx_lt handles h, fun i hi => selectChannelIdx_max handles i hi⟩, ?_⟩
  refine ⟨by decide, by decide, by decide, by decide⟩

/-- C2 witness: the theorem applied to the two-channel scenario device. -/
theorem freespace_c2_witness :
    0 < devTwoCh.handles.length ∧
    ((selectChannelIdx devTwoCh.handles < devTwoCh.handles.length ∧
      ∀ i, i < devTwoCh.handles.length →
        (devTwoCh.handles.getD i defaultSub).outputReportByteLength ≤
          (devTwoCh.handles.getD (selectChannelIdx devTwoCh.handles)
             defaultSub).outputReportByteLength) ∧
     (selectChannelIdx devTwoCh.handles = 1 ∧
      (prepareSend 1024 true devTwoCh (List.replicate 10 2) 10).rc = RC.success ∧
      ((prepareSend 1024 true devTwoCh (List.replicate 10 2) 10).dev.sends.getD 0
         defaultSend).interface_ = some 1 ∧
      ((prepareSend 1024 true devTwoCh (List.replicate 10 2) 10).dev.sends.getD 0
         defaultSend).report_ = List.replicate 10 2 ++ List.replicate 21 0)) :=
  ⟨by decide, freespace_c2_selects_largest_channel devTwoCh.handles (by decide)⟩

/-- C3: for every send accepted by `prepareSend` (length at most the
selected channel's output report length, itself at most the hard
maximum), the bytes handed to the write are exactly the caller's
`length` input bytes followed by zero padding to exactly the target
channel's output report length, and the write is issued for exactly
that many bytes. -/
theorem freespace_c3_zero_padded_write (maxOut : Nat) (dev : DeviceStruct)
    (report : List Nat) (length i : Nat) (w : WriteOutcome)
    (hOpen : dev.isOpened = true) (hFree : getNextSendBuffer dev.sends = some i)
    (hEv : (dev.sends.getD i defaultSend).hEvent = true)
    (hLen : length ≤ targetOutputLength dev) (hMax : targetOutputLength dev ≤ maxOut)
    (hRep : length ≤ report.length) :
    (prepareSend maxOut true dev report length).rc = RC.success ∧
    (freespace_send_activate (prepareSend maxOut true dev report length).dev.handles
        ((prepareSend maxOut true dev report length).dev.sends.getD i defaultSend)
        w).events.head?
      = some (Event.writeIssued (selectChannelIdx dev.handles)
          (report.take length ++ List.replicate (targetOutputLength dev - length) 0)) ∧
    (report.take length ++ List.replicate (targetOutputLength dev - length) 0).length
      = targetOutputLength dev := by
  have hi : i < dev.sends.length := getNextSendBuffer_lt_length dev.sends i hFree
  have hp := prepareSend_success maxOut true dev report length i hOpen hFree hEv hLen hMax
  have htake := paddedReport_take report length (targetOutputLength dev)
    ((dev.sends.getD i defaultSend).report_.drop (targetOutputLength dev)) hRep hLen
  rw [hp]
  refine ⟨rfl, ?_, htake.2⟩
  rw [activate_write_event]
  rw [getD_set_self _ _ _ _ hi]
  simp only [Option.getD_some, targetOutputLength] at htake ⊢
  rw [htake.1]

/-- C3 witness: a 3-byte report on the 7-byte-output single-channel
device is padded to exactly 7 bytes on the wire. -/
theorem freespace_c3_witness :
    devOneCh.isOpened = true ∧
    getNextSendBuffer devOneCh.sends = some 0 ∧
    (devOneCh.sends.getD 0 defaultSend).hEvent = true ∧
    3 ≤ targetOutputLength devOneCh ∧
    targetOutputLength devOneCh ≤ 1024 ∧
    3 ≤ ([1, 2, 3] : List Nat).length ∧
    ((prepareSend 1024 true devOneCh [1, 2, 3] 3).rc = RC.success ∧
     (freespace_send_activate (prepareSend 1024 true devOneCh [1, 2, 3] 3).dev.handles
         ((prepareSend 1024 true devOneCh [1, 2, 3] 3).dev.sends.getD 0 defaultSend)
         (WriteOutcome.fail ERROR_IO_PENDING)).events.head?
       = some (Event.writeIssued (selectChannelIdx devOneCh.handles)
           (([1, 2, 3] : List Nat).take 3
            ++ List.replicate (targetOutputLength devOneCh - 3) 0)) ∧
     (([1, 2, 3] : List Nat).take 3
      ++ List.replicate (targetOutputLength devOneCh - 3) 0).length
       = targetOutputLength devOneCh) :=
  ⟨by decide, by decide, by decide, by decide, by decide, by decide,
   freespace_c3_zero_padded_write 1024 devOneCh [1, 2, 3] 3 0
     (WriteOutcome.fail ERROR_IO_PENDING) (by decide) (by decide) (by decide)
     (by decide) (by decide) (by decide)⟩

/-- C4: evaluation at the failing input.  `prepareSend` with length 10
against the 7-byte-output channel returns `SEND_TOO_LARGE`, but the
allocated slot's channel reference is still set (`some 0`, not `none`):
the slot is NOT back in the FREE state.  `freespace_send` returns the
error without finalizing the slot either, leaving one slot of the pool
permanently in use. -/
theorem freespace_c4_slot_leak_on_send_too_large :
    (prepareSend 1024 true devOneCh (List.replicate 10 1) 10).rc = RC.sendTooLarge ∧
    ((prepareSend 1024 true devOneCh (List.replicate 10 1) 10).dev.sends.getD 0
       defaultSend).interface_ = some 0 ∧
    (freespace_send 1024 devOneCh (List.replicate 10 1) 10 true (WriteOutcome.ok 7) true
       OverlappedOutcome.notReady).1 = RC.sendTooLarge ∧
    ((freespace_send 1024 devOneCh (List.replicate 10 1) 10 true (WriteOutcome.ok 7) true
       OverlappedOutcome.notReady).2.1.sends.getD 0 defaultSend).interface_ = some 0 ∧
    inUseCount (freespace_send 1024 devOneCh (List.replicate 10 1) 10 true
       (WriteOutcome.ok 7) true OverlappedOutcome.notReady).2.1.sends = 1 := by
  decide

/-- A device whose only send slot is in use: the pool is exhausted. -/
def devFull : DeviceStruct :=
  { devOneCh with sends := [{ freeSlot with interface_ := some 0 }] }

/-- C6: the number of in-use slots never exceeds the pool capacity;
allocation is a first-fit scan; and when every slot is in use,
`prepareSend` returns `BUSY` with the device unchanged (no slot
mutated). -/
theorem freespace_c6_pool_invariant (sends : List SendStruct) (maxOut : Nat) (ceo : Bool)
    (dev : DeviceStruct) (report : List Nat) (length i : Nat)
    (hFit : getNextSendBuffer sends = some i)
    (hOpen : dev.isOpened = true)
    (hAll : ∀ s ∈ dev.sends, s.interface_ ≠ none) :
    inUseCount sends ≤ sends.length ∧
    (i < sends.length ∧
     (sends.getD i defaultSend).interface_ = none ∧
     ∀ j, j < i → (sends.getD j defaultSend).interface_ ≠ none) ∧
    inUseCount dev.sends = dev.sends.length ∧
    prepareSend maxOut ceo dev report length = ⟨RC.busy, dev, none⟩ := by
  refine ⟨List.countP_le_length _,
          ⟨getNextSendBuffer_lt_length sends i hFit, getNextSendBuffer_free sends i hFit,
           getNextSendBuffer_first sends i hFit⟩, ?_,
          prepareSend_busy maxOut ceo dev report length hOpen
            (getNextSendBuffer_none dev.sends hAll)⟩
  unfold inUseCount
  refine List.countP_eq_length.mpr (fun s hs => ?_)
  simp only [Option.isSome_iff_ne_none]
  exact hAll s hs

/-- C6 witness: a one-slot pool with its slot free (first-fit finds it)
and an exhausted device where `prepareSend` reports `BUSY`. -/
theorem freespace_c6_witness :
    getNextSendBuffer devOneCh.sends = some 0 ∧
    devFull.isOpened = true ∧
    (∀ s ∈ devFull.sends, s.interface_ ≠ none) ∧
    (inUseCount devOneCh.sends ≤ devOneCh.sends.length ∧
     (0 < devOneCh.sends.length ∧
      (devOneCh.sends.getD 0 defaultSend).interface_ = none ∧
      ∀ j, j < 0 → (devOneCh.sends.getD j defaultSend).interface_ ≠ none) ∧
     inUseCount devFull.sends = devFull.sends.length ∧
     prepareSend 1024 true devFull [1, 2] 2 = ⟨RC.busy, devFull, none⟩) :=
  ⟨by decide, by decide, by decide,
   freespace_c6_pool_invariant devOneCh.sends 1024 true devFull [1, 2] 2 0
     (by decide) (by decide) (by decide)⟩

/-- C10: a synchronous read whose payload is larger than the caller's
`maxLength` copies exactly `maxLength` bytes, sets `actualLength` to
`maxLength`, and still returns `SUCCESS` — on the immediate-completion
path of the arming loop and on the post-wait completion path alike. -/
theorem freespace_c10_read_truncates (dev dev2 : DeviceStruct) (c c2 : SubStruct)
    (hs : List SubStruct) (payload : List Nat) (maxLength : Nat)
    (armRest : List ReadOutcome) (wait : WaitOutcome) (poll : List PollOutcome)
    (hH : dev.handles = c :: hs) (hc : c.readStatus = false)
    (hH2 : dev2.handles = [c2]) (hc2 : c2.readStatus = true)
    (hlt : maxLength < payload.length) :
    ((freespace_read dev maxLength (ReadOutcome.ok payload :: armRest) wait poll).rc
       = RC.success ∧
     (freespace_read dev maxLength (ReadOutcome.ok payload :: armRest) wait
        poll).actualLength = some maxLength ∧
     (freespace_read dev maxLength (ReadOutcome.ok payload :: armRest) wait poll).message
       = payload.take maxLength) ∧
    ((freespace_read dev2 maxLength armRest WaitOutcome.signaled
        [PollOutcome.ready payload]).rc = RC.success ∧
     (freespace_read dev2 maxLength armRest WaitOutcome.signaled
        [PollOutcome.ready payload]).actualLength = some maxLength ∧
     (freespace_read dev2 maxLength armRest WaitOutcome.signaled
        [PollOutcome.ready payload]).message = payload.take maxLength) := by
  have hmin : min payload.length maxLength = maxLength :=
    min_eq_right (Nat.le_of_lt hlt)
  constructor
  · unfold freespace_read
    rw [hH]
    simp only [List.length_cons, List.range_succ_eq_map, readArmLoop,
               List.getD_cons_zero, hc, Bool.false_eq_true, if_false, List.nil_append,
               hmin]
    exact ⟨by first | rfl | trivial, by first | rfl | trivial, by first | rfl | trivial⟩
  · unfold freespace_read
    rw [hH2]
    simp only [List.length_singleton, List.range_succ_eq_map, List.range_zero,
               List.map_nil, readArmLoop, List.getD_cons_zero, hc2, if_true,
               readPollLoop, hmin]
    exact ⟨by first | rfl | trivial, by first | rfl | trivial, by first | rfl | trivial⟩

/-- C10 witness: a 5-byte payload against `maxLength = 3` is truncated
to 3 bytes with `SUCCESS`, on both completion paths. -/
theorem freespace_c10_witness :
    devOneCh.handles = ch7 :: [] ∧
    ch7.readStatus = false ∧
    ({ devOneCh with handles := [{ ch7 with readStatus := true }] }).handles
      = [{ ch7 with readStatus := true }] ∧
    ({ ch7 with readStatus := true }).readStatus = true ∧
    3 < ([9, 8, 7, 6, 5] : List Nat).length ∧
    (((freespace_read devOneCh 3 (ReadOutcome.ok [9, 8, 7, 6, 5] :: []) WaitOutcome.signaled
         []).rc = RC.success ∧
      (freespace_read devOneCh 3 (ReadOutcome.ok [9, 8, 7, 6, 5] :: []) WaitOutcome.signaled
         []).actualLength = some 3 ∧
      (freespace_read devOneCh 3 (ReadOutcome.ok [9, 8, 7, 6, 5] :: []) WaitOutcome.signaled
         []).message = ([9, 8, 7, 6, 5] : List Nat).take 3) ∧
     ((freespace_read { devOneCh with handles := [{ ch7 with readStatus := true }] } 3 []
         WaitOutcome.signaled [PollOutcome.ready [9, 8, 7, 6, 5]]).rc = RC.success ∧
      (freespace_read { devOneCh with handles := [{ ch7 with readStatus := true }] } 3 []
         WaitOutcome.signaled [PollOutcome.ready [9, 8, 7, 6, 5]]).actualLength = some 3 ∧
      (freespace_read { devOneCh with handles := [{ ch7 with readStatus := true }] } 3 []
         WaitOutcome.signaled [PollOutcome.ready [9, 8, 7, 6, 5]]).message
        = ([9, 8, 7, 6, 5] : List Nat).take 3)) :=
  ⟨by decide, by decide, by decide, by decide, by decide,
   freespace_c10_read_truncates devOneCh
     { devOneCh with handles := [{ ch7 with readStatus := true }] } ch7
     { ch7 with readStatus := true } [] [9, 8, 7, 6, 5] 3 [] WaitOutcome.signaled []
     (by decide) (by decide) (by decide) (by decide) (by decide)⟩

/-- C8 counterexample: on a device that is not opened, `freespace_flush`
does not fail — it returns `SUCCESS` — and it performs device I/O
(`CancelIo` on the channel handle), contradicting the claim that every
operation other than open/close/destroy fails without device I/O. -/
theorem freespace_c8_counterexample :
    devClosed.isOpened = false ∧
    (freespace_flush devClosed).1 = RC.success ∧
    (freespace_flush devClosed).2.2 = [Event.ioCancel 0] := by
  decide

/-- C8 amended: on an unopened device, `prepareSend` (hence
`freespace_send` and `freespace_sendAsync`) fails with the IO error and
performs no device I/O; but `freespace_read` and `freespace_flush` do
not consult the opened flag: flush returns `SUCCESS` after issuing a
cancel on every channel, and read proceeds to issue reads on the
channels (shown on the unopened fixture device). -/
theorem freespace_c8_unopened_behaviour (maxOut : Nat) (ceo : Bool) (dev : DeviceStruct)
    (report : List Nat) (length t ck : Nat) (cbQ : Bool) (w : WriteOutcome)
    (ws : Bool) (ov : OverlappedOutcome) (hOpen : dev.isOpened = false) :
    prepareSend maxOut ceo dev report length = ⟨RC.io, dev, none⟩ ∧
    freespace_send maxOut dev report length ceo w ws ov = (RC.io, dev, []) ∧
    freespace_sendAsync maxOut dev report length t cbQ ck ceo w = (RC.io, dev, []) ∧
    (freespace_flush dev).1 = RC.success ∧
    (freespace_flush dev).2.2 = (List.range dev.handles.length).map Event.ioCancel ∧
    (freespace_read devClosed 8 [ReadOutcome.fail 5] WaitOutcome.signaled []).events
      = [Event.readIssued 0] ∧
    (freespace_read devClosed 8 [ReadOutcome.fail 5] WaitOutcome.signaled []).rc
      = RC.interrupted := by
  have hp := prepareSend_not_opened maxOut ceo dev report length hOpen
  refine ⟨hp, ?_, ?_, rfl, rfl, by decide, by decide⟩
  · unfold freespace_send
    rw [hp]
  · unfold freespace_sendAsync
    rw [hp]

/-- C8 witness: the amended behaviour at the unopened fixture device. -/
theorem freespace_c8_witness :
    devClosed.isOpened = false ∧
    (prepareSend 1024 true devClosed [1] 1 = ⟨RC.io, devClosed, none⟩ ∧
     freespace_send 1024 devClosed [1] 1 true (WriteOutcome.ok 7) true
       OverlappedOutcome.notReady = (RC.io, devClosed, []) ∧
     freespace_sendAsync 1024 devClosed [1] 1 9 true 5 true (WriteOutcome.ok 7)
       = (RC.io, devClosed, []) ∧
     (freespace_flush devClosed).1 = RC.success ∧
     (freespace_flush devClosed).2.2
       = (List.range devClosed.handles.length).map Event.ioCancel ∧
     (freespace_read devClosed 8 [ReadOutcome.fail 5] WaitOutcome.signaled []).events
       = [Event.readIssued 0] ∧
     (freespace_read devClosed 8 [ReadOutcome.fail 5] WaitOutcome.signaled []).rc
       = RC.interrupted) :=
  ⟨by decide,
   freespace_c8_unopened_behaviour 1024 true devClosed [1] 1 9 5 true (WriteOutcome.ok 7)
     true OverlappedOutcome.notReady (by decide)⟩

/-- C9 counterexample: a disconnect (`ERROR_DEVICE_NOT_CONNECTED`)
surfaced by the `WriteFile` failure path of `freespace_send_activate`
is reported as `UNEXPECTED`, not `NOT_FOUND`: the disconnect-to-
`NOT_FOUND` mapping does not hold on every OS-failure path. -/
theorem freespace_c9_counterexample :
    (freespace_send_activate [ch7]
       { freeSlot with interface_ := some 0, report_ := [1, 2, 3, 0, 0, 0, 0] }
       (WriteOutcome.fail ERROR_DEVICE_NOT_CONNECTED)).rc = RC.unexpected ∧
    RC.unexpected ≠ RC.notFound ∧
    convertGetLastError ERROR_DEVICE_NOT_CONNECTED = RC.notFound := by
  decide

/-- C9 amended: `convertGetLastError` maps a disconnect to `NOT_FOUND`
and every other code to `UNEXPECTED`, and the rearm pass's issuance
error delivers exactly that converted code through the callback; but the
mapping is not applied on every path: the write-activation failure path
reports `UNEXPECTED` for every OS failure code, disconnects included. -/
theorem freespace_c9_error_code_mapping (e e2 : Nat) (handles : List SubStruct)
    (slot : SendStruct) (devId : Nat) (ch : SubStruct) (clears : List Bool)
    (hne : e ≠ ERROR_DEVICE_NOT_CONNECTED) (hnp : e2 ≠ ERROR_IO_PENDING)
    (hrs : ch.readStatus = false) :
    convertGetLastError ERROR_DEVICE_NOT_CONNECTED = RC.notFound ∧
    convertGetLastError e = RC.unexpected ∧
    (freespace_send_activate handles slot (WriteOutcome.fail e2)).rc = RC.unexpected ∧
    (initiateAsyncReceives devId true true [ch] [ReadOutcome.fail e2] clears).events
      = [Event.readIssued 0, Event.recvCallback none (convertGetLastError e2)] ∧
    (initiateAsyncReceives devId true true [ch] [ReadOutcome.fail e2] clears).rc
      = RC.interrupted := by
  refine ⟨by decide, ?_, ?_, ?_, ?_⟩
  · simp [convertGetLastError, hne]
  · simp [freespace_send_activate, finalizeSendStruct, hnp]
  · simp [initiateAsyncReceives, receivesAux, drainChannel, hrs, hnp]
  · simp [initiateAsyncReceives, receivesAux, drainChannel, hrs, hnp]

/-- C9 witness: the amended mapping at concrete codes (5 as the generic
OS failure). -/
theorem freespace_c9_witness :
    (5 : Nat) ≠ ERROR_DEVICE_NOT_CONNECTED ∧
    (5 : Nat) ≠ ERROR_IO_PENDING ∧
    chRecv.readStatus = false ∧
    (convertGetLastError ERROR_DEVICE_NOT_CONNECTED = RC.notFound ∧
     convertGetLastError 5 = RC.unexpected ∧
     (freespace_send_activate [ch7]
        { freeSlot with interface_ := some 0, report_ := [1, 2, 3, 0, 0, 0, 0] }
        (WriteOutcome.fail 5)).rc = RC.unexpected ∧
     (initiateAsyncReceives 4 true true [chRecv] [ReadOutcome.fail 5] []).events
       = [Event.readIssued 0, Event.recvCallback none (convertGetLastError 5)] ∧
     (initiateAsyncReceives 4 true true [chRecv] [ReadOutcome.fail 5] []).rc
       = RC.interrupted) :=
  ⟨by decide, by decide, by decide,
   freespace_c9_error_code_mapping 5 5 [ch7]
     { freeSlot with interface_ := some 0, report_ := [1, 2, 3, 0, 0, 0, 0] } 4 chRecv []
     (by decide) (by decide) (by decide)⟩

/-- Evaluation of `freespace_send_activate` when the write goes pending:
the `FREESPACE_ERROR_IO` sentinel, slot and channels untouched. -/
lemma activate_pending (handles : List SubStruct) (slot : SendStruct) :
    freespace_send_activate handles slot (WriteOutcome.fail ERROR_IO_PENDING) =
      ⟨RC.io, slot, handles,
       [Event.writeIssued (slot.interface_.getD 0)
          (slot.report_.take
            ((handles.getD (slot.interface_.getD 0) defaultSub).outputReportByteLength))]⟩ := by
  simp [freespace_send_activate]

/-- C5 counterexample: a synchronous send whose write goes pending, whose
wait does not signal, and whose write is still outstanding at the
post-wait poll returns the IO error — not `TIMEOUT` as the claim states
(the code classifies the reverse way: completed-at-poll is `TIMEOUT`,
still-outstanding is IO). -/
theorem freespace_c5_counterexample :
    (freespace_send 1024 devOneCh [1, 2] 2 true (WriteOutcome.fail ERROR_IO_PENDING) false
       OverlappedOutcome.notReady).1 = RC.io ∧
    RC.io ≠ RC.timeout ∧
    (freespace_send 1024 devOneCh [1, 2] 2 true (WriteOutcome.fail ERROR_IO_PENDING) false
       (OverlappedOutcome.ready 7)).1 = RC.timeout := by
  decide

/-- C5 amended: when a synchronous send's write goes pending and the
wait does not signal, all I/O on the target channel is cancelled and its
pending-read flag cleared, and the result is `TIMEOUT` if the write had
already completed at the post-wait poll, and the IO error if it was
still outstanding. -/
theorem freespace_c5_timeout_classification (maxOut : Nat) (dev : DeviceStruct)
    (report : List Nat) (length i : Nat) (ov : OverlappedOutcome)
    (hOpen : dev.isOpened = true) (hFree : getNextSendBuffer dev.sends = some i)
    (hEv : (dev.sends.getD i defaultSend).hEvent = true)
    (hLen : length ≤ targetOutputLength dev) (hMax : targetOutputLength dev ≤ maxOut)
    (hH : 0 < dev.handles.length) :
    (freespace_send maxOut dev report length true (WriteOutcome.fail ERROR_IO_PENDING)
       false ov).1
      = (match ov with | .ready _ => RC.timeout | .notReady => RC.io) ∧
    Event.ioCancel (selectChannelIdx dev.handles)
      ∈ (freespace_send maxOut dev report length true (WriteOutcome.fail ERROR_IO_PENDING)
           false ov).2.2 ∧
    ((freespace_send maxOut dev report length true (WriteOutcome.fail ERROR_IO_PENDING)
        false ov).2.1.handles.getD (selectChannelIdx dev.handles) defaultSub).readStatus
      = false := by
  have hi : i < dev.sends.length := getNextSendBuffer_lt_length dev.sends i hFree
  have hci : selectChannelIdx dev.handles < dev.handles.length :=
    selectChannelIdx_lt dev.handles hH
  have hp := prepareSend_success maxOut true dev report length i hOpen hFree hEv hLen hMax
  unfold freespace_send
  rw [hp]
  simp only [ne_eq, not_true_eq_false, if_false, ite_false,
             getD_set_self _ _ _ _ hi, activate_pending]
  cases ov with
  | ready n =>
    simp only [Bool.not_false, if_true, ite_true]
    refine ⟨rfl, by simp, ?_⟩
    show ((setReadStatus dev.handles (selectChannelIdx dev.handles) false).getD
        (selectChannelIdx dev.handles) defaultSub).readStatus = false
    unfold setReadStatus
    rw [getD_set_self _ _ _ _ hci]
  | notReady =>
    simp only [Bool.not_false, if_true, ite_true]
    refine ⟨rfl, by simp, ?_⟩
    show ((setReadStatus dev.handles (selectChannelIdx dev.handles) false).getD
        (selectChannelIdx dev.handles) defaultSub).readStatus = false
    unfold setReadStatus
    rw [getD_set_self _ _ _ _ hci]

/-- C5 witness: the amended classification at the one-channel device,
for both poll outcomes. -/
theorem freespace_c5_witness :
    devOneCh.isOpened = true ∧
    getNextSendBuffer devOneCh.sends = some 0 ∧
    (devOneCh.sends.getD 0 defaultSend).hEvent = true ∧
    2 ≤ targetOutputLength devOneCh ∧
    targetOutputLength devOneCh ≤ 1024 ∧
    0 < devOneCh.handles.length ∧
    ((freespace_send 1024 devOneCh [1, 2] 2 true (WriteOutcome.fail ERROR_IO_PENDING)
        false OverlappedOutcome.notReady).1
       = (match OverlappedOutcome.notReady with
          | .ready _ => RC.timeout | .notReady => RC.io) ∧
     Event.ioCancel (selectChannelIdx devOneCh.handles)
       ∈ (freespace_send 1024 devOneCh [1, 2] 2 true (WriteOutcome.fail ERROR_IO_PENDING)
            false OverlappedOutcome.notReady).2.2 ∧
     ((freespace_send 1024 devOneCh [1, 2] 2 true (WriteOutcome.fail ERROR_IO_PENDING)
         false OverlappedOutcome.notReady).2.1.handles.getD
        (selectChannelIdx devOneCh.handles) defaultSub).readStatus = false) :=
  ⟨by decide, by decide, by decide, by decide, by decide, by decide,
   freespace_c5_timeout_classification 1024 devOneCh [1, 2] 2 0 OverlappedOutcome.notReady
     (by decide) (by decide) (by decide) (by decide) (by decide) (by decide)⟩

/-- Is this event an invocation of a send callback? -/
def isSendCb : Event → Bool
  | Event.sendCallback _ _ _ => true
  | _ => false

/-- `freespace_send_activate` never invokes a send callback. -/
lemma activate_no_sendCb (handles : List SubStruct) (slot : SendStruct) (w : WriteOutcome) :
    (freespace_send_activate handles slot w).events.filter isSendCb = [] := by
  cases w with
  | ok n => rfl
  | fail e =>
    by_cases he : e = ERROR_IO_PENDING
    · simp [freespace_send_activate, he, isSendCb]
    · simp [freespace_send_activate, he, isSendCb]

/-- C1 counterexample: an accepted asynchronous send (opened device,
free slot, in-range length, registered callback) whose write completes
synchronously during activation returns `SUCCESS`, yet its trace
contains no send-callback invocation at all — the callback does not
fire before `freespace_sendAsync` returns (nor ever, for this send):
it fires zero times, not exactly once. -/
theorem freespace_c1_counterexample :
    (freespace_sendAsync 1024 devOneCh [1, 2, 3] 3 500 true 77 true
       (WriteOutcome.ok 7)).1 = RC.success ∧
    (freespace_sendAsync 1024 devOneCh [1, 2, 3] 3 500 true 77 true
       (WriteOutcome.ok 7)).2.2.filter isSendCb = [] ∧
    ((freespace_sendAsync 1024 devOneCh [1, 2, 3] 3 500 true 77 true
        (WriteOutcome.ok 7)).2.1.sends.getD 0 defaultSend).interface_ = none := by
  decide

/-- C1 amended: `freespace_sendAsync` itself never invokes the send
callback — a synchronously completed activation returns `SUCCESS` with
no callback; for a write that went pending, the perform pass that
observes its completion invokes the registered callback exactly once,
with `SUCCESS` iff the transferred byte count equals the target
channel's output report length, and frees the slot. -/
theorem freespace_c1_async_callback (devId ci n : Nat) (handles : List SubStruct)
    (s : SendStruct) (maxOut : Nat) (dev : DeviceStruct) (report : List Nat)
    (length i t ck : Nat) (cbQ : Bool) (w : WriteOutcome)
    (hOpen : dev.isOpened = true) (hFree : getNextSendBuffer dev.sends = some i)
    (hEv : (dev.sends.getD i defaultSend).hEvent = true)
    (hLen : length ≤ targetOutputLength dev) (hMax : targetOutputLength dev ≤ maxOut) :
    ((performSends devId handles
        [{ s with interface_ := some ci, hasCallback := true }]
        [OverlappedOutcome.ready n]).2
      = [Event.sendCallback devId s.cookie
           (if n ≠ (handles.getD ci defaultSub).outputReportByteLength
            then RC.io else RC.success)] ∧
     ((if n ≠ (handles.getD ci defaultSub).outputReportByteLength
       then RC.io else RC.success) = RC.success
        ↔ n = (handles.getD ci defaultSub).outputReportByteLength) ∧
     ((performSends devId handles
         [{ s with interface_ := some ci, hasCallback := true }]
         [OverlappedOutcome.ready n]).1.getD 0 defaultSend).interface_ = none) ∧
    (freespace_sendAsync maxOut dev report length t cbQ ck true w).2.2.filter isSendCb
      = [] ∧
    (freespace_sendAsync maxOut dev report length t cbQ ck true
       (WriteOutcome.ok n)).1 = RC.success := by
  refine ⟨⟨?_, ?_, ?_⟩, ?_, ?_⟩
  · simp [performSends, performSendSlot, finalizeSendStruct]
  · by_cases hn : n = (handles.getD ci defaultSub).outputReportByteLength
    · simp [hn]
    · simp [hn]
  · simp [performSends, performSendSlot, finalizeSendStruct]
  · simp only [freespace_sendAsync]
    split
    · rfl
    · split
      · rfl
      · split
        · exact activate_no_sendCb _ _ _
        · exact activate_no_sendCb _ _ _
  · rw [freespace_sendAsync]
    rw [prepareSend_success maxOut true dev report length i hOpen hFree hEv hLen hMax]
    rfl

/-- C1 witness: the amended behaviour at a concrete device — the
perform pass fires the callback exactly once (with `SUCCESS` for a
7-byte transfer on the 7-byte channel), and a synchronously completed
async send returns `SUCCESS` with no callback in its trace. -/
theorem freespace_c1_witness :
    devOneCh.isOpened = true ∧
    getNextSendBuffer devOneCh.sends = some 0 ∧
    (devOneCh.sends.getD 0 defaultSend).hEvent = true ∧
    3 ≤ targetOutputLength devOneCh ∧
    targetOutputLength devOneCh ≤ 1024 ∧
    (((performSends 2 [ch7]
         [{ freeSlot with interface_ := some 0, hasCallback := true }]
         [OverlappedOutcome.ready 7]).2
       = [Event.sendCallback 2 freeSlot.cookie
            (if 7 ≠ ([ch7].getD 0 defaultSub).outputReportByteLength
             then RC.io else RC.success)] ∧
      ((if 7 ≠ ([ch7].getD 0 defaultSub).outputReportByteLength
        then RC.io else RC.success) = RC.success
         ↔ 7 = ([ch7].getD 0 defaultSub).outputReportByteLength) ∧
      ((performSends 2 [ch7]
          [{ freeSlot with interface_ := some 0, hasCallback := true }]
          [OverlappedOutcome.ready 7]).1.getD 0 defaultSend).interface_ = none) ∧
     (freespace_sendAsync 1024 devOneCh [1, 2, 3] 3 500 true 77 true
        (WriteOutcome.fail ERROR_IO_PENDING)).2.2.filter isSendCb = [] ∧
     (freespace_sendAsync 1024 devOneCh [1, 2, 3] 3 500 true 77 true
        (WriteOutcome.ok 7)).1 = RC.success) :=
  ⟨by decide, by decide, by decide, by decide, by decide,
   freespace_c1_async_callback 2 0 7 [ch7] freeSlot 1024 devOneCh [1, 2, 3] 3 0 500 77
     true (WriteOutcome.fail ERROR_IO_PENDING) (by decide) (by decide) (by decide)
     (by decide) (by decide)⟩

/-- Is this event a `ReadFile` issuance? -/
def isReadIssued : Event → Bool
  | Event.readIssued _ => true
  | _ => false

/-- C7 counterexample: a rearm pass over two channels in which the
callback is cleared from inside the first delivery.  The trace shows a
read issued on channel 0 and another on channel 1 *after* the clearing
delivery (positions 2 and 3, after dropping the first two events):
read issuance does not stop for the remainder of the pass. -/
theorem freespace_c7_counterexample :
    (initiateAsyncReceives 4 true true [chRecv, chRecv]
       [ReadOutcome.ok [5], ReadOutcome.fail ERROR_IO_PENDING,
        ReadOutcome.fail ERROR_IO_PENDING] [true]).events
      = [Event.readIssued 0, Event.recvCallback (some [5]) RC.success,
         Event.readIssued 0, Event.readIssued 1] ∧
    Event.readIssued 1 ∈ ((initiateAsyncReceives 4 true true [chRecv, chRecv]
       [ReadOutcome.ok [5], ReadOutcome.fail ERROR_IO_PENDING,
        ReadOutcome.fail ERROR_IO_PENDING] [true]).events.drop 2) := by
  decide

/-- C7 amended: clearing the receive callback from inside a callback
invocation stops all further *payload delivery* for the remainder of the
rearm pass — the continuation of the drain and of the channel loop after
a clear (their runs with the callback flag down) deliver nothing, and a
whole pass whose first delivery clears the callback delivers at most
that one payload — but *read issuance* continues: the trace of the
two-channel clearing scenario still contains three `ReadFile`
issuances. -/
theorem freespace_c7_clear_stops_delivery_not_issuance :
    (∀ (devId idx : Nat) (handles : List SubStruct) (oracle : List ReadOutcome)
       (clears : List Bool),
       deliveries (drainChannel devId idx false handles oracle clears).events = []) ∧
    (∀ (devId : Nat) (idxs : List Nat) (handles : List SubStruct)
       (oracle : List ReadOutcome) (clears : List Bool) (rc0 : RC),
       deliveries (receivesAux devId idxs handles false oracle clears rc0).events = []) ∧
    (∀ (devId : Nat) (isOp cbf : Bool) (handles : List SubStruct)
       (oracle : List ReadOutcome) (rest : List Bool),
       (deliveries (initiateAsyncReceives devId isOp cbf handles oracle
          (true :: rest)).events).length ≤ 1) ∧
    ((initiateAsyncReceives 4 true true [chRecv, chRecv]
        [ReadOutcome.ok [5], ReadOutcome.fail ERROR_IO_PENDING,
         ReadOutcome.fail ERROR_IO_PENDING] [true]).events.filter isReadIssued).length
      = 3 := by
  refine ⟨?_, ?_, ?_, by decide⟩
  · intro devId idx handles oracle clears
    exact (drainChannel_cb_false devId idx handles oracle clears).2.1
  · intro devId idxs handles oracle clears rc0
    exact (receivesAux_cb_false devId idxs handles oracle clears rc0).2
  · intro devId isOp cbf handles oracle rest
    unfold initiateAsyncReceives
    cases isOp with
    | false => simp [deliveries]
    | true =>
      cases cbf with
      | false => simp [deliveries]
      | true =>
        simp only [Bool.not_true, Bool.or_self, Bool.false_eq_true, if_false]
        rcases receivesAux_clear_first devId (List.range handles.length) handles true
            oracle (true :: rest) RC.success (by simp) with ⟨h0, -, -⟩ | ⟨h1, -⟩
        · simp [h0]
        · exact h1
